import Mathlib

/-!
Shallow embedding of `core/smtp_client.go` from the tmail repository: the
SMTP client used by the outbound-delivery engine.

Modelling conventions:
* Network interactions are supplied as oracle environments (`CmdEnv` for one
  command exchange, `Attempt` for one connect attempt): each records what the
  wire would have produced, and the Lean definitions reproduce the Go control
  flow over those records.
* Go `error` values become `Option String` (`none` is a nil error).
* Go byte slices become `List Nat` (one entry per byte).
* Durations are natural numbers of seconds; a `select` racing a completed
  operation against a `time.Timer` is modelled by comparing the operation's
  duration with the timer bound (ties resolved toward the timer).
-/

namespace TmailSMTP

/-! ## String helpers mirroring the Go `strings` functions used by the client -/

/-- Mirrors `strings.Count(s, sep) != 0` for the one-character separators used
in `newSMTPClient` (number of occurrences of the character). -/
def countChar (c : Char) (s : String) : Nat :=
  s.data.count c

/-- Worker for `splitOnChar`, structural over the character list. -/
def splitOnCharAux (c : Char) : List Char → List Char → List (List Char)
  | [], acc => [acc.reverse]
  | x :: xs, acc =>
    if x = c then acc.reverse :: splitOnCharAux c xs []
    else splitOnCharAux c xs (x :: acc)

/-- Mirrors `strings.Split(s, sep)` for a one-character separator. -/
def splitOnChar (c : Char) (s : String) : List String :=
  (splitOnCharAux c s.data []).map String.mk

/-- Worker for `splitN2`, structural over the character list. -/
def splitN2Aux : List Char → List Char → List String
  | [], acc => [String.mk acc.reverse]
  | x :: xs, acc =>
    if x = ' ' then [String.mk acc.reverse, String.mk xs]
    else splitN2Aux xs (x :: acc)

/-- Mirrors `strings.SplitN(line, " ", 2)`: at most two fields, split at the
first space. -/
def splitN2 (line : String) : List String :=
  splitN2Aux line.data []

/-- ASCII uppercase of one character (SMTP extension keywords are ASCII, so
this coincides with Go `strings.ToUpper` on the inputs that occur). -/
def upChar (c : Char) : Char :=
  if 97 ≤ c.toNat ∧ c.toNat ≤ 122 then Char.ofNat (c.toNat - 32) else c

/-- Mirrors `strings.ToUpper` on ASCII strings. -/
def toUpperStr (s : String) : String :=
  String.mk (s.data.map upChar)

/-- Bytes of an ASCII string, mirroring Go `[]byte(s)`. -/
def strBytes (s : String) : List Nat :=
  s.data.map Char.toNat

/-! ## Base64 (`encoding/base64` StdEncoding), used by `Auth` -/

/-- The standard base64 alphabet. -/
def b64Alphabet : List Char :=
  "ABCDEFGHIJKLMNOPQRSTUVWXYZabcdefghijklmnopqrstuvwxyz0123456789+/".data

/-- Character for a 6-bit group. -/
def b64Char (n : Nat) : Char :=
  b64Alphabet.getD n '?'

/-- Encode byte triples into four base64 characters, padding with `=`. -/
def b64EncodeChunks : List Nat → List Char
  | [] => []
  | [b0] =>
    [b64Char (b0 / 4), b64Char (b0 % 4 * 16), '=', '=']
  | [b0, b1] =>
    [b64Char (b0 / 4), b64Char (b0 % 4 * 16 + b1 / 16), b64Char (b1 % 16 * 4), '=']
  | b0 :: b1 :: b2 :: rest =>
    b64Char (b0 / 4) :: b64Char (b0 % 4 * 16 + b1 / 16) ::
      b64Char (b1 % 16 * 4 + b2 / 64) :: b64Char (b2 % 64) :: b64EncodeChunks rest

/-- Mirrors `base64.StdEncoding.Encode` of a byte slice into a string. -/
def b64Encode (bs : List Nat) : String :=
  String.mk (b64EncodeChunks bs)

/-- Index of a character in the base64 alphabet. -/
def b64Index (c : Char) : Option Nat :=
  if c ∈ b64Alphabet then some (b64Alphabet.indexOf c) else none

/-- Decode groups of four base64 characters; `none` mirrors a
`CorruptInputError` from `base64.StdEncoding.DecodeString`. -/
def b64DecodeChunks : List Char → Option (List Nat)
  | [] => some []
  | [c0, c1, '=', '='] => do
    let n0 ← b64Index c0
    let n1 ← b64Index c1
    some [n0 * 4 + n1 / 16]
  | [c0, c1, c2, '='] => do
    let n0 ← b64Index c0
    let n1 ← b64Index c1
    let n2 ← b64Index c2
    some [n0 * 4 + n1 / 16, n1 % 16 * 16 + n2 / 4]
  | c0 :: c1 :: c2 :: c3 :: rest => do
    let n0 ← b64Index c0
    let n1 ← b64Index c1
    let n2 ← b64Index c2
    let n3 ← b64Index c3
    let tail ← b64DecodeChunks rest
    some ((n0 * 4 + n1 / 16) :: (n1 % 16 * 16 + n2 / 4) :: (n2 % 4 * 64 + n3) :: tail)
  | _ => none

/-- Mirrors `base64.StdEncoding.DecodeString`. -/
def b64Decode (s : String) : Option (List Nat) :=
  b64DecodeChunks s.data

/-! ## The generic command primitive `cmd` (smtp_client.go lines 157-184) -/

/-- Raw outcome of one `textproto` response read: transport or parse error
(in which case code and message are ignored by the reader), reply code and
reply message. -/
structure ReadResult where
  readErr : Option String
  code : Nat
  msg : String
deriving DecidableEq

/-- Oracle environment for one `cmd` call: how long the `text.Cmd` send takes
and with which error it completes, how long reading the response would take,
and the raw response.  `readTime` is recorded so that timing claims about the
response read can be stated; the source races only the send against the
timer, so the definition of `cmd` never consults `readTime`. -/
structure CmdEnv where
  sendTime : Nat
  sendErr : Option String
  readTime : Nat
  reply : ReadResult
deriving DecidableEq

/-- Return value of `cmd`: reply code, message and error. -/
structure CmdOutcome where
  code : Nat
  msg : String
  err : Option String
deriving DecidableEq

/-- Expected-code check of `textproto.parseCodeLine`: an error exactly when
`expectCode` is positive and the reply code does not match it (one digit
matches the hundreds, two digits the tens, three digits exactly).  The error
carries the code and the server message (`textproto.Error`). -/
def readRespErr (expect : Int) (code : Nat) (msg : String) : Option String :=
  if (1 ≤ expect ∧ expect < 10 ∧ ((code : Int) / 100 ≠ expect))
      ∨ (10 ≤ expect ∧ expect < 100 ∧ ((code : Int) / 10 ≠ expect))
      ∨ (100 ≤ expect ∧ expect < 1000 ∧ ((code : Int) ≠ expect)) then
    some (Nat.repr code ++ " " ++ msg)
  else
    none

/-- Embedding of `smtpClient.cmd(timeoutSeconds, expectedCode, format)`.
The goroutine runs only `s.text.Cmd` (the send); the `select` races its
completion against a `time.AfterFunc(timeoutSeconds)` timer.  If the timer
fires first the call returns the timeout error; otherwise the response is
read with `ReadResponse(expectedCode)` after the `select`, unbounded by the
timer. -/
def cmd (timeoutSeconds : Nat) (expect : Int) (env : CmdEnv) : CmdOutcome :=
  if env.sendTime < timeoutSeconds then
    match env.sendErr with
    | some e => ⟨0, "", some e⟩
    | none =>
      match env.reply.readErr with
      | some e => ⟨0, "", some e⟩
      | none => ⟨env.reply.code, env.reply.msg, readRespErr expect env.reply.code env.reply.msg⟩
  else
    ⟨0, "", some "server do not reply in time -> timeout"⟩

/-! ## Address policy resolution (smtp_client.go lines 34-76)

Only the local-IP side is modelled: parsing of IP strings (`net.ParseIP`),
DNS lookup and the address-family filter at lines 69-108 are external
library calls not under study by any claim. -/

/-- Mirrors lines 60-65: `rSIps[v] = sIps[i]` for `i, v := range perm` into a
freshly made slice of the same length. -/
def scatter (xs : List String) (perm : List Nat) : List String :=
  (perm.zip xs).foldl (fun acc pv => acc.set pv.1 pv.2) (List.replicate xs.length "")

/-- Whether `perm` is a possible return value of `rand.Perm n`: a permutation
of `0, ..., n-1`. -/
def isPerm (perm : List Nat) (n : Nat) : Bool :=
  perm.length == n && (List.range n).all (fun i => perm.contains i)

/-- Embedding of lines 37-67 of `newSMTPClient`: split the route's local-IP
specification into the ordered list of local IP strings.  `perm` is the
permutation drawn from `rand.Perm` for this resolution; the source applies it
whenever the specification holds more than one address (failover or
round-robin alike). -/
def resolveLocalIps (localIp : String) (routeId : Nat) (perm : List Nat) :
    Except String (List String) :=
  let failover := countChar '&' localIp ≠ 0
  let roundRobin := countChar '|' localIp ≠ 0
  if failover ∧ roundRobin then
    Except.error ("failover and round-robin are mixed in route " ++ Nat.repr routeId
      ++ " for local IP")
  else if ¬failover ∧ ¬roundRobin then
    Except.ok [localIp]
  else
    Except.ok (scatter (splitOnChar (if failover then '&' else '|') localIp) perm)

/-! ## The connection attempt loop (smtp_client.go lines 102-150) -/

/-- Outcome of the dial race for one candidate pair: either
`net.DialTCP` completed (with a nil or non-nil error) before the 30 s
connect timer, or the timer fired first.  A `ResolveTCPAddr` failure
(lines 112-115) behaves like `completed (some e)`: the function returns
`nil, err` at once. -/
inductive DialOutcome
  | completed (err : Option String)
  | timedOut
deriving DecidableEq

/-- Oracle for one candidate pair of the loop at lines 103-146: the dial race
outcome and the raw greeting read that `ReadCodeLine(220)` would perform. -/
structure Attempt where
  dial : DialOutcome
  greet : ReadResult
deriving DecidableEq

/-- Error of `ReadCodeLine(220)` on the greeting: a transport error, or the
expected-code check against 220. -/
def readCodeLine (expect : Int) (g : ReadResult) : Option String :=
  match g.readErr with
  | some e => some e
  | none => readRespErr expect g.code g.msg

/-- What the body of the `select` at lines 126-143 does with one candidate. -/
inductive AttemptStep
  | retClient
  | retErr (e : Option String)
  | next
deriving DecidableEq

/-- Embedding of the `select` block: if the dial completed without error, the
greeting is read; a 220 greeting returns the client, any other greeting falls
through to `return nil, err` where the outer `err` is still nil (the greeting
error at line 133 shadows it).  A dial error returns `nil, err`.  Only a
timer expiry logs and continues with the next candidate. -/
def attemptStep (a : Attempt) : AttemptStep :=
  match a.dial with
  | DialOutcome.completed none =>
    match readCodeLine 220 a.greet with
    | none => AttemptStep.retClient
    | some _ => AttemptStep.retErr none
  | DialOutcome.completed (some e) => AttemptStep.retErr (some e)
  | DialOutcome.timedOut => AttemptStep.next

/-- Observable result of `newSMTPClient`: whether a (non-nil) client was
returned, and the returned error. -/
structure NewClientResult where
  hasClient : Bool
  err : Option String
deriving DecidableEq

/-- Embedding of the candidate iteration of `newSMTPClient` (lines 102-150),
flattened over the route and candidate-pair loops in their nested order: the
first attempt whose step returns ends the function; exhausting every
candidate yields the terminal exhaustion error of line 149. -/
def newSMTPClientAttempts : List Attempt → NewClientResult
  | [] => ⟨false, some "unable to get a client, all routes have been tested"⟩
  | a :: rest =>
    match attemptStep a with
    | AttemptStep.retClient => ⟨true, none⟩
    | AttemptStep.retErr e => ⟨false, e⟩
    | AttemptStep.next => newSMTPClientAttempts rest

/-! ## Session state and the HELO/EHLO negotiator (smtp_client.go lines 18-30
and 235-275) -/

/-- The mutable fields of `smtpClient` that the SMTP commands read or write:
the extension map (`none` mirrors a nil Go map, as distinct from an empty
one), the advertised auth mechanisms, the TLS-active flag, and whether the
transport has been closed. -/
structure SessionState where
  ext : Option (List (String × String))
  auth : List String
  tls : Bool
  closed : Bool
deriving DecidableEq

/-- Go map assignment `m[k] = v`: replace the binding if the key is present,
append it otherwise. -/
def mapInsert (m : List (String × String)) (k v : String) : List (String × String) :=
  if m.any (fun p => p.1 = k) then
    m.map (fun p => if p.1 = k then (k, v) else p)
  else
    m ++ [(k, v)]

/-- Go map lookup `m[k]`. -/
def mapGet (m : List (String × String)) (k : String) : Option String :=
  (m.find? (fun p => p.1 = k)).map (fun p => p.2)

/-- Lines 250-262 of `Ehlo`: split the 250 message on line breaks, drop the
greeting banner, and store each further line as keyword plus optional
argument (split at the first space). -/
def parseExts (msg : String) : List (String × String) :=
  let extList := splitOnChar '\n' msg
  if extList.length > 1 then
    (extList.drop 1).foldl
      (fun m line =>
        match splitN2 line with
        | k :: v :: _ => mapInsert m k v
        | [k] => mapInsert m k ""
        | [] => m)
      []
  else
    []

/-- Lines 250-266 of `Ehlo` applied to the session: build the extension map
from the reply message, replace the mechanism list when the literal keyword
`AUTH` is present, and replace the extension map. -/
def ehloApply (st : SessionState) (msg : String) : SessionState :=
  { (match mapGet (parseExts msg) "AUTH" with
     | some mechs => { st with auth := splitOnChar ' ' mechs }
     | none => st) with
    ext := some (parseExts msg) }

/-- Embedding of `Ehlo()` (lines 245-268): `EHLO <me>` with timeout 10 and
expected code 250; on error the session is untouched, otherwise the
extension map and (possibly) the mechanism list are rebuilt from the reply.
`cmd` is pure, so its three projections below denote the single call of the
source. -/
def Ehlo (st : SessionState) (env : CmdEnv) : SessionState × CmdOutcome :=
  if (cmd 10 250 env).err = none then
    (ehloApply st ((cmd 10 250 env).msg), cmd 10 250 env)
  else
    (st, cmd 10 250 env)

/-- Embedding of `Helo()` (lines 271-275): set the extension map to nil, then
`HELO <me>` with timeout 30 and expected code 250.  The mechanism list is not
touched. -/
def Helo (st : SessionState) (env : CmdEnv) : SessionState × CmdOutcome :=
  ({ st with ext := none }, cmd 30 250 env)

/-- Embedding of `Hello()` (lines 236-242): try `Ehlo`, fall back to `Helo`
on any error. -/
def Hello (st : SessionState) (ehloEnv heloEnv : CmdEnv) : SessionState × CmdOutcome :=
  if (Ehlo st ehloEnv).2.err = none then
    Ehlo st ehloEnv
  else
    Helo (Ehlo st ehloEnv).1 heloEnv

/-- Embedding of `Extension(ext)` (lines 187-194): nil map reports
unsupported; otherwise the query is uppercased and looked up. -/
def Extension (st : SessionState) (e : String) : Bool × String :=
  match st.ext with
  | none => (false, "")
  | some m =>
    match mapGet m (toUpperStr e) with
    | some par => (true, par)
    | none => (false, "")

/-! ## STARTTLS (smtp_client.go lines 278-292) -/

/-- Embedding of `StartTLS(config)`: clear the TLS flag, send `STARTTLS`
(timeout 30, expected 220); on success wrap the transport (`tls.Client`
cannot fail - handshake errors surface inside the following `Ehlo`, whose
environment is `e2`), re-run `Ehlo`, and only if that succeeds set the TLS
flag. -/
def StartTLS (st : SessionState) (e1 e2 : CmdEnv) : SessionState × CmdOutcome :=
  if (cmd 30 220 e1).err = none then
    if (Ehlo { st with tls := false } e2).2.err = none then
      ({ (Ehlo { st with tls := false } e2).1 with tls := true },
       (Ehlo { st with tls := false } e2).2)
    else
      Ehlo { st with tls := false } e2
  else
    ({ st with tls := false }, cmd 30 220 e1)

/-! ## Envelope commands (smtp_client.go lines 231-233, 336-347, 367-371) -/

/-- Embedding of `Noop()`. -/
def Noop (env : CmdEnv) : CmdOutcome :=
  cmd 30 200 env

/-- Embedding of `Mail(from)`. -/
def Mail (env : CmdEnv) : CmdOutcome :=
  cmd 30 250 env

/-- Embedding of `Rcpt(to)` (lines 341-347): `RCPT TO` with the expected-code
check disabled (-1); any code other than 250 and 251 replaces the error with
`errors.New(msg)`. -/
def Rcpt (env : CmdEnv) : CmdOutcome :=
  if (cmd 30 (-1) env).code ≠ 250 ∧ (cmd 30 (-1) env).code ≠ 251 then
    { cmd 30 (-1) env with err := some ((cmd 30 (-1) env).msg) }
  else
    cmd 30 (-1) env

/-- Embedding of `close()` (lines 153-155) as its effect on the session. -/
def close (st : SessionState) : SessionState :=
  { st with closed := true }

/-- Embedding of `Quit()` (lines 367-371): `QUIT` with timeout 10 and
expected code 221, then `s.text.Close()` unconditionally; the command's
result is returned as is. -/
def Quit (st : SessionState) (env : CmdEnv) : SessionState × CmdOutcome :=
  (close st, cmd 10 221 env)

/-! ## The AUTH negotiator (smtp_client.go lines 295-333) -/

/-- The `ServerInfo` handed to the authenticator's `Start`: local identity,
TLS flag and advertised mechanisms. -/
structure ServerInfo where
  name : String
  tls : Bool
  auth : List String

/-- The pluggable authenticator capability (`DeliverdAuth`): `Start` yields
mechanism name, optional initial response and error; `Next` consumes a server
message plus the is-challenge flag and yields an optional further response
and error. -/
structure DeliverdAuth where
  start : ServerInfo → String × Option (List Nat) × Option String
  next : List Nat → Bool → Option (List Nat) × Option String

/-- Observable outcome of `Auth`: the returned triple (the named return `msg`
is never assigned in the source, hence always empty), the sequence of
arguments `Next` was called with, the command lines sent, and whether the
transport was closed (by a `Quit` on an abort path). -/
structure AuthResult where
  code : Nat
  msg : String
  err : Option String
  nextCalls : List (List Nat × Bool)
  sent : List String
  closed : Bool
deriving DecidableEq

/-- The `for err == nil` loop of `Auth` (lines 305-331).  `envs` supplies the
replies of the successive further `cmd` calls; running off this list means
the modelled trace was too short, never a behaviour of the source.  The
abort path's `cmd(10, 501, "*")` and `s.Quit()` have their results discarded
by the source, so they are recorded only in `sent`/`closed`. -/
def authLoop (a : DeliverdAuth) : List CmdEnv → Nat → String → Option String →
    List (List Nat × Bool) → List String → AuthResult
  | _, code, _, some e, calls, sent => ⟨code, "", some e, calls, sent, false⟩
  | envs, code, msg64, none, calls, sent =>
    match (if code == 334 then
             match b64Decode msg64 with
             | some m => (m, none)
             | none => (([] : List Nat), some "illegal base64 data")
           else if code == 235 then
             (strBytes msg64, none)
           else
             (([] : List Nat), some (Nat.repr code ++ " " ++ msg64)) :
           List Nat × Option String) with
    | (_, some e1) => ⟨code, "", some e1, calls, sent ++ ["*", "QUIT"], true⟩
    | (msg, none) =>
      match a.next msg (code == 334) with
      | (_, some e2) =>
        ⟨code, "", some e2, calls ++ [(msg, code == 334)], sent ++ ["*", "QUIT"], true⟩
      | (none, none) =>
        ⟨code, "", none, calls ++ [(msg, code == 334)], sent, false⟩
      | (some r, none) =>
        match envs with
        | [] => ⟨code, "", some "server trace exhausted", calls ++ [(msg, code == 334)],
                 sent, false⟩
        | e :: rest =>
          authLoop a rest (cmd 30 0 e).code (cmd 30 0 e).msg (cmd 30 0 e).err
            (calls ++ [(msg, code == 334)]) (sent ++ [b64Encode r])

/-- Embedding of `Auth(a)`: call `Start` with the server info (a `Start`
error quits and propagates), then send `AUTH <mech> <base64 initial
response>` with the expected-code check disabled (0), and run the exchange
loop.  `env0` is the reply environment of that first command, `envs` those
of the later ones. -/
def Auth (st : SessionState) (me : String) (a : DeliverdAuth) (env0 : CmdEnv)
    (envs : List CmdEnv) : AuthResult :=
  match a.start ⟨me, st.tls, st.auth⟩ with
  | (_, _, some e) => ⟨0, "", some e, [], ["QUIT"], true⟩
  | (mech, resp, none) =>
    authLoop a envs (cmd 30 0 env0).code (cmd 30 0 env0).msg (cmd 30 0 env0).err []
      ["AUTH " ++ mech ++ " " ++ b64Encode (resp.getD [])]

/-! ## Concrete oracle environments used by the claim theorems -/

/-- An immediate 250 EHLO reply advertising AUTH mechanisms (uppercase
keywords, as servers conventionally send them). -/
def envEhloAuth : CmdEnv := ⟨0, none, 0, ⟨none, 250, "mx.example banner\nAUTH PLAIN LOGIN"⟩⟩

/-- An immediate 250 EHLO reply advertising extensions in lowercase. -/
def envEhloLower : CmdEnv := ⟨0, none, 0, ⟨none, 250, "mx.example banner\nsize 100\nauth PLAIN"⟩⟩

/-- An immediate 250 EHLO reply advertising extensions in uppercase. -/
def envEhloUpper : CmdEnv :=
  ⟨0, none, 0, ⟨none, 250, "mx.example banner\nSIZE 100\nAUTH PLAIN LOGIN"⟩⟩

/-- An immediate plain 250 HELO reply. -/
def envHelo : CmdEnv := ⟨0, none, 0, ⟨none, 250, "mx.example"⟩⟩

/-- An immediate 220 reply to STARTTLS. -/
def envStarttls : CmdEnv := ⟨0, none, 0, ⟨none, 220, "2.0.0 Ready to start TLS"⟩⟩

/-- An immediate 235 reply ending an AUTH exchange. -/
def env235 : CmdEnv := ⟨0, none, 0, ⟨none, 235, "2.7.0 Authentication successful"⟩⟩

/-- An immediate 252 reply to RCPT. -/
def env252 : CmdEnv := ⟨0, none, 0, ⟨none, 252, "Cannot VRFY user, but will accept message"⟩⟩

/-- An environment whose send takes 30 s, so every `cmd` with a smaller
timeout races out. -/
def envQuitTimeout : CmdEnv := ⟨30, none, 0, ⟨none, 0, ""⟩⟩

/-- An environment where the send is instantaneous but the response read
would take 1000000 s, the response being 250 ok. -/
def envSlowRead : CmdEnv := ⟨0, none, 1000000, ⟨none, 250, "ok"⟩⟩

/-- A fresh session as built by `newSMTPClient`: nil extension map, no
mechanisms, no TLS, open transport. -/
def freshSession : SessionState := ⟨none, [], false, false⟩

/-- An authenticator in the shape of PLAIN: `Start` yields an initial
response, `Next` reports that no further response is needed. -/
def plainDone : DeliverdAuth where
  start := fun _ => ("PLAIN", some [0, 117, 115, 101, 114, 0, 112, 97, 115, 115], none)
  next := fun _ _ => (none, none)

/-! ## Helper lemmas -/

/-- The reply returned by `Ehlo` is exactly the `cmd 10 250` outcome. -/
theorem ehlo_reply (st : SessionState) (env : CmdEnv) : (Ehlo st env).2 = cmd 10 250 env := by
  unfold Ehlo
  split <;> rfl

/-- `Ehlo` never changes the TLS flag. -/
theorem ehlo_tls (st : SessionState) (env : CmdEnv) : (Ehlo st env).1.tls = st.tls := by
  unfold Ehlo ehloApply
  split
  · cases mapGet (parseExts ((cmd 10 250 env).msg)) "AUTH" <;> rfl
  · rfl

/-! ## Claim theorems -/

/-- C1: the claim says a candidate whose dial succeeds but whose greeting is
not 220 is treated as a failed attempt and iteration continues.  The code
instead returns from the function at once (the greeting error shadows the
outer `err` at line 133, and line 139 returns unconditionally): with a
554-greeting candidate first, `newSMTPClient` returns (nil client, nil
error) and the following candidate, which would have yielded a valid 220
greeting, is never tried. -/
theorem C1_code_eval :
    newSMTPClientAttempts [⟨DialOutcome.completed none, ⟨none, 554, "no SMTP service here"⟩⟩,
        ⟨DialOutcome.completed none, ⟨none, 220, "mx.example ESMTP"⟩⟩] = ⟨false, none⟩ ∧
    newSMTPClientAttempts [⟨DialOutcome.completed none, ⟨none, 220, "mx.example ESMTP"⟩⟩] =
      ⟨true, none⟩ := by
  constructor <;> rfl

/-- C2: the claim says a failover local-IP specification is resolved in input
order on every resolution.  The shuffle of lines 60-65 is applied to every
multi-address specification (the comment restricts it to round robin, the
code does not), so the legal `rand.Perm 2` draw `[1, 0]` makes the resolver
emit the two failover addresses in reversed order. -/
theorem C2_code_eval :
    isPerm [1, 0] 2 = true ∧
    splitOnChar '&' "10.0.0.1&10.0.0.2" = ["10.0.0.1", "10.0.0.2"] ∧
    resolveLocalIps "10.0.0.1&10.0.0.2" 1 [1, 0] = Except.ok ["10.0.0.2", "10.0.0.1"] := by
  refine ⟨rfl, rfl, rfl⟩

/-- C3: the claim says send and response read both run inside the race
against the `timeoutSeconds` timer.  Only the send does (the goroutine of
lines 167-170 runs `text.Cmd` alone; `ReadResponse` runs after the
`select`): with an instantaneous send and a response read of 1000000 s
against a 30 s timeout, `cmd` returns the 250 reply with a nil error instead
of the timeout error. -/
theorem C3_code_eval :
    envSlowRead.sendTime + envSlowRead.readTime > 30 ∧
    cmd 30 250 envSlowRead = ⟨250, "ok", none⟩ ∧
    (cmd 30 250 envSlowRead).err ≠ some "server do not reply in time -> timeout" := by
  refine ⟨by decide, rfl, by decide⟩

/-- C4 counterexample: the claim says `Helo()` clears both the extension map
and the mechanism list.  After an `Ehlo` that populated the mechanisms, a
`Helo` leaves the mechanism list intact (line 272 resets only `s.ext`). -/
theorem C4_counterexample :
    (Ehlo freshSession envEhloAuth).1.auth = ["PLAIN", "LOGIN"] ∧
    (Helo (Ehlo freshSession envEhloAuth).1 envHelo).1.auth = ["PLAIN", "LOGIN"] ∧
    ["PLAIN", "LOGIN"] ≠ ([] : List String) := by
  refine ⟨by decide, by decide, by decide⟩

/-- C4 amended: `Helo()` unconditionally clears the extension map to nil and
leaves the advertised mechanism list unchanged. -/
theorem C4_amended (st : SessionState) (env : CmdEnv) :
    (Helo st env).1.ext = none ∧ (Helo st env).1.auth = st.auth :=
  ⟨rfl, rfl⟩

/-- C8: `Quit()` closes the transport in every case: whatever the `QUIT`
command's outcome (221, unexpected code, error or timeout, i.e. for every
environment), the returned session is closed and the command result is
passed through. -/
theorem C8_quit (st : SessionState) (env : CmdEnv) :
    (Quit st env).1.closed = true ∧ (Quit st env).2 = cmd 10 221 env :=
  ⟨rfl, rfl⟩

/-- C9: with the expected-code check disabled, `Rcpt` succeeds exactly when
the server's reply code is 250 or 251, and any other reply code yields an
error whose text equals the server's message. -/
theorem C9_rcpt (env : CmdEnv) (h : (cmd 30 (-1) env).err = none) :
    ((Rcpt env).err = none ↔
      ((cmd 30 (-1) env).code = 250 ∨ (cmd 30 (-1) env).code = 251)) ∧
    (¬(cmd 30 (-1) env).code = 250 → ¬(cmd 30 (-1) env).code = 251 →
      (Rcpt env).err = some ((cmd 30 (-1) env).msg)) := by
  unfold Rcpt
  by_cases h250 : (cmd 30 (-1) env).code = 250
  · simp [h250, h]
  · by_cases h251 : (cmd 30 (-1) env).code = 251
    · simp [h250, h251, h]
    · simp [h250, h251]

/-- C9 witness: a 252 reply to RCPT is rejected with the server's message as
the error text. -/
theorem C9_rcpt_witness :
    ((Rcpt env252).err = none ↔
      ((cmd 30 (-1) env252).code = 250 ∨ (cmd 30 (-1) env252).code = 251)) ∧
    (¬(cmd 30 (-1) env252).code = 250 → ¬(cmd 30 (-1) env252).code = 251 →
      (Rcpt env252).err = some ((cmd 30 (-1) env252).msg)) :=
  C9_rcpt env252 (by decide)

/-- C10: whenever the candidate reached by the loop (every earlier candidate
having timed out, the only continuing outcome) dials successfully but its
greeting read does not yield code 220, `newSMTPClient` returns a nil client
together with a nil error. -/
theorem C10_nil_nil (pre post : List Attempt) (a : Attempt)
    (hpre : ∀ x ∈ pre, x.dial = DialOutcome.timedOut)
    (hdial : a.dial = DialOutcome.completed none)
    (hgreet : readCodeLine 220 a.greet ≠ none) :
    newSMTPClientAttempts (pre ++ a :: post) = ⟨false, none⟩ := by
  induction pre with
  | nil =>
    have hout : attemptStep a = AttemptStep.retErr none := by
      unfold attemptStep
      rw [hdial]
      cases hg : readCodeLine 220 a.greet with
      | none => exact absurd hg hgreet
      | some e => rfl
    simp [newSMTPClientAttempts, hout]
  | cons x xs ih =>
    have hx : attemptStep x = AttemptStep.next := by
      unfold attemptStep
      rw [hpre x (by simp)]
    have hxs : ∀ y ∈ xs, y.dial = DialOutcome.timedOut := fun y hy => hpre y (by simp [hy])
    calc newSMTPClientAttempts ((x :: xs) ++ a :: post)
        = newSMTPClientAttempts (xs ++ a :: post) := by
          simp only [List.cons_append, newSMTPClientAttempts, hx]
          rfl
      _ = ⟨false, none⟩ := ih hxs

/-- C10 witness: after a timed-out candidate, a candidate that dials but is
greeted with 421 makes the whole function return (nil, nil), with a further
working candidate still pending. -/
theorem C10_nil_nil_witness :
    newSMTPClientAttempts ([⟨DialOutcome.timedOut, ⟨none, 0, ""⟩⟩] ++
        (⟨DialOutcome.completed none, ⟨none, 421, "busy"⟩⟩ : Attempt) ::
        [⟨DialOutcome.completed none, ⟨none, 220, "mx ready"⟩⟩]) = ⟨false, none⟩ :=
  C10_nil_nil [⟨DialOutcome.timedOut, ⟨none, 0, ""⟩⟩]
    [⟨DialOutcome.completed none, ⟨none, 220, "mx ready"⟩⟩]
    ⟨DialOutcome.completed none, ⟨none, 421, "busy"⟩⟩
    (by decide) (by decide) (by decide)

/-- C5 counterexample: the claim says that when `Start` yields an initial
response and the server immediately answers 235, the loop ends without any
call to `Next`.  The source calls `Next` once on the 235 branch (line 317,
with the literal status text and `isChallenge = false`). -/
theorem C5_counterexample :
    (Auth freshSession "mail.example.org" plainDone env235 []).nextCalls =
      [(strBytes "2.7.0 Authentication successful", false)] ∧
    (Auth freshSession "mail.example.org" plainDone env235 []).nextCalls ≠ [] := by
  refine ⟨rfl, by decide⟩

/-- C5 amended: when `Start` yields a mechanism with an initial response and
the server's first reply to AUTH has code 235, the loop calls `Next` exactly
once - with the literal (not base64-decoded) status message and
`isChallenge = false` - and, that call returning no response and no error,
ends with a nil error. -/
theorem C5_amended (st : SessionState) (me : String) (a : DeliverdAuth) (env0 : CmdEnv)
    (mech : String) (resp : List Nat)
    (hstart : a.start ⟨me, st.tls, st.auth⟩ = (mech, some resp, none))
    (hcode : (cmd 30 0 env0).code = 235)
    (herr : (cmd 30 0 env0).err = none)
    (hnext : a.next (strBytes ((cmd 30 0 env0).msg)) false = (none, none)) :
    (Auth st me a env0 []).nextCalls = [(strBytes ((cmd 30 0 env0).msg), false)] ∧
    (Auth st me a env0 []).err = none := by
  unfold Auth
  rw [hstart]
  rw [hcode, herr]
  unfold authLoop
  norm_num
  have hb : (235 == 334) = false := rfl
  rw [hb, hnext]
  exact ⟨rfl, rfl⟩

/-- C5 witness: the amended behaviour at the concrete PLAIN-style exchange. -/
theorem C5_amended_witness :
    (Auth freshSession "mail.example.org" plainDone env235 []).nextCalls =
      [(strBytes ((cmd 30 0 env235).msg), false)] ∧
    (Auth freshSession "mail.example.org" plainDone env235 []).err = none :=
  C5_amended freshSession "mail.example.org" plainDone env235 "PLAIN"
    [0, 117, 115, 101, 114, 0, 112, 97, 115, 115] rfl rfl rfl rfl

/-- C6 counterexample: the claim says the extension map is keyword
case-insensitive, for every letter case the server uses.  A server
advertising `size 100` and `auth PLAIN` in lowercase is not recognized:
`Ehlo` stores keywords verbatim while `Extension` uppercases only the query,
so both the lowercase and the uppercase query report unsupported, and the
mechanism list stays empty (line 263 looks up the literal key `AUTH`). -/
theorem C6_counterexample :
    Extension (Ehlo freshSession envEhloLower).1 "SIZE" = (false, "") ∧
    Extension (Ehlo freshSession envEhloLower).1 "size" = (false, "") ∧
    (Ehlo freshSession envEhloLower).1.auth = [] := by
  refine ⟨by decide, by decide, by decide⟩

/-- C6 amended: the stored keyword map is case-sensitive on the server side
and only the query is normalized: after a successful `Ehlo`, a query in any
letter case reports a keyword as supported with its parameter exactly when
the uppercased query is a stored key - so case-insensitivity holds only for
keywords the server advertised entirely in uppercase - and the mechanism
list is rebuilt exactly when the literal keyword `AUTH` was advertised. -/
theorem C6_amended (st : SessionState) (env : CmdEnv) (q par mechs : String)
    (herr : (cmd 10 250 env).err = none)
    (hfind : mapGet (parseExts ((cmd 10 250 env).msg)) (toUpperStr q) = some par)
    (hauth : mapGet (parseExts ((cmd 10 250 env).msg)) "AUTH" = some mechs) :
    Extension (Ehlo st env).1 q = (true, par) ∧
    (Ehlo st env).1.auth = splitOnChar ' ' mechs := by
  have h1 : (Ehlo st env).1 = ehloApply st ((cmd 10 250 env).msg) := by
    unfold Ehlo
    rw [if_pos herr]
  rw [h1]
  unfold ehloApply
  rw [hauth]
  constructor
  · show (match mapGet (parseExts ((cmd 10 250 env).msg)) (toUpperStr q) with
          | some p => (true, p)
          | none => (false, "")) = (true, par)
    rw [hfind]
  · rfl

/-- C6 witness: the amended behaviour at an uppercase advertisement queried
in lowercase. -/
theorem C6_amended_witness :
    Extension (Ehlo freshSession envEhloUpper).1 "size" = (true, "100") ∧
    (Ehlo freshSession envEhloUpper).1.auth = splitOnChar ' ' "PLAIN LOGIN" :=
  C6_amended freshSession envEhloUpper "size" "100" "PLAIN LOGIN"
    (by decide) (by decide) (by decide)

/-- C7: the session's TLS flag is true after `StartTLS` exactly when both
the STARTTLS command and the post-TLS `Ehlo` succeeded, and whenever the
flag stays false the failing command's error is returned to the caller. -/
theorem C7_startTLS (st : SessionState) (e1 e2 : CmdEnv) :
    ((StartTLS st e1 e2).1.tls = true ↔
      ((cmd 30 220 e1).err = none ∧ (cmd 10 250 e2).err = none)) ∧
    ((StartTLS st e1 e2).1.tls = false → ((StartTLS st e1 e2).2).err ≠ none) := by
  have hE : (Ehlo { st with tls := false } e2).2 = cmd 10 250 e2 :=
    ehlo_reply { st with tls := false } e2
  have hT : (Ehlo { st with tls := false } e2).1.tls = false :=
    ehlo_tls { st with tls := false } e2
  unfold StartTLS
  by_cases h1 : (cmd 30 220 e1).err = none
  · by_cases h2 : (cmd 10 250 e2).err = none
    · rw [if_pos h1, if_pos (hE.symm ▸ h2 : (Ehlo { st with tls := false } e2).2.err = none)]
      constructor
      · simp [h1, h2]
      · intro hfalse
        simp at hfalse
    · rw [if_pos h1, if_neg (fun hc => h2 (hE ▸ hc))]
      constructor
      · constructor
        · intro htls
          rw [hT] at htls
          exact absurd htls (by simp)
        · intro hboth
          exact absurd hboth.2 h2
      · intro hfalse
        rw [hE]
        intro hc
        exact h2 hc
  · rw [if_neg h1]
    constructor
    · constructor
      · intro htls
        simp at htls
      · intro hboth
        exact absurd hboth.1 h1
    · intro hfalse
      simpa using h1

end TmailSMTP
